import Mathlib

/-!
Verification of the NADA server-side analysis pipeline.

This file gives a shallow embedding of the analysis/fusion/alerting/
notification/chat-assistant subsystem of the NADA repository:

* `supabase/functions/server/audio-processor.tsx` (class `AudioProcessor`):
  analyzer fallback substitution, sanitization, score fusion, history
  storage, alert creation;
* `supabase/functions/server/index.tsx` (the audio analyze endpoint):
  endpoint-level history storage and failure handling;
* the notification system (`NotificationSystem.sendNotification`,
  `isInQuietHours`, `isAlertTypeEnabled`);
* the Gemini chat assistant retry machinery (`calculateRetryDelay`,
  `isRetryableError`, `makeGeminiRequest`).

Modelling conventions:
* JS numbers are embedded as rationals (`ℚ`); `Math.round` is
  floor-of-plus-half (`jsRound`), matching JS semantics for the
  non-negative values that occur here.
* A JS field that is missing or not of the tested type is modelled as
  `none`; `typeof x === 'number'` checks become matches on `Option ℚ`.
* JS truthiness chains `a || b` on numbers (where `0` is falsy) are
  modelled by `jsOr`; on strings (`""` falsy) by `jsOrStr`.  JS arrays
  are always truthy, so `arr || x` is modelled as `arr`.
* Effects (kv storage, channel delivery, HTTP responses) are modelled by
  explicit outcome parameters; a `try/catch` that swallows an exception
  becomes a function that is total in the outcome parameter.
-/

namespace NADA

/-- JS `a || b` on numbers: `0` is falsy. -/
def jsOr (a b : ℚ) : ℚ := if a = 0 then b else a

/-- JS `a || b` on strings: `""` is falsy. -/
def jsOrStr (a b : String) : String := if a = "" then b else a

/-- JS `Math.round`: half-up (towards positive infinity). -/
def jsRound (q : ℚ) : ℤ := ⌊q + 1/2⌋

/-- JS truthiness chain `x || y || d` where `x y : Option ℚ` model possibly
missing numeric fields (`undefined` and `0` are both falsy). -/
def falsyChain (x y : Option ℚ) (d : ℚ) : ℚ :=
  match x with
  | some v => if v = 0 then (match y with
      | some w => if w = 0 then d else w
      | none => d) else v
  | none => match y with
    | some w => if w = 0 then d else w
    | none => d

/-- The `typeof a === 'number' ? a : typeof b === 'number' ? b : d` pattern
of `validateAndSanitize...`. -/
def numOr (x y : Option ℚ) (d : ℚ) : ℚ :=
  match x with
  | some v => v
  | none => match y with
    | some w => w
    | none => d

/-- Whether the first list starts with the second. -/
def charsStartWith : List Char → List Char → Bool
  | _, [] => true
  | [], _ :: _ => false
  | h :: hs, p :: ps => h == p && charsStartWith hs ps

/-- Whether the second list occurs as a contiguous run of the first. -/
def charsContain : List Char → List Char → Bool
  | [], pat => pat.isEmpty
  | h :: tl, pat => charsStartWith (h :: tl) pat || charsContain tl pat

/-- JS `hay.includes(pat)`. -/
def strIncludes (hay pat : String) : Bool := charsContain hay.data pat.data

/-- JS `s.toLowerCase()` (character-wise lowering suffices for the ASCII
keywords compared in this codebase). -/
def toLowerStr (s : String) : String := String.mk (s.data.map Char.toLower)

/-- Split a character list at every occurrence of a separator character
(JS `s.split(sep)` for a single-character separator). -/
def splitChars (sep : Char) : List Char → List (List Char)
  | [] => [[]]
  | c :: cs =>
    let r := splitChars sep cs
    if c = sep then [] :: r
    else
      match r with
      | [] => [[c]]
      | h :: t => (c :: h) :: t

/-- Parse a decimal digit string (the `Number("22")` conversions applied
to the pieces of a quiet-hours time string). -/
def parseNatChars (l : List Char) : Option ℕ :=
  l.foldl (fun acc c =>
    acc.bind (fun n => if c.isDigit then some (n * 10 + (c.toNat - 48)) else none))
    (some 0)

/-- Raw species-call analyzer output (`NatureLM` result) as seen by
`validateAndSanitizeFrogAnalysis`: every field may be missing or of the
wrong type (modelled as `none`). -/
structure RawFrog where
  species_detected : Option (List String)
  species : Option (List String)
  call_density : Option ℚ
  call_count : Option ℚ
  confidence_score : Option ℚ
  confidence : Option ℚ
  water_quality_indicator : Option String
deriving DecidableEq

/-- Raw environmental analyzer output (`AVES` result) as seen by
`validateAndSanitizeEnvironmentalAnalysis`. -/
structure RawEnv where
  biodiversity_score : Option ℚ
  habitat_quality : Option String
  noise_pollution_level : Option ℚ
  ecosystem_health : Option String
  recommendations : Option (List String)
deriving DecidableEq

/-- Sanitized species-call result (output of
`validateAndSanitizeFrogAnalysis`): all fields present. -/
structure SanFrog where
  species_detected : List String
  species : List String
  call_density : ℚ
  call_count : ℚ
  confidence_score : ℚ
  confidence : ℚ
  water_quality_indicator : String
deriving DecidableEq

/-- Sanitized environmental result (output of
`validateAndSanitizeEnvironmentalAnalysis`). -/
structure SanEnv where
  biodiversity_score : ℚ
  habitat_quality : String
  noise_pollution_level : ℚ
  ecosystem_health : String
  recommendations : List String
deriving DecidableEq

/-- `AudioProcessor.determineWaterQuality`. -/
def determineWaterQuality (callsPerMinute : ℚ) : String :=
  if callsPerMinute ≥ 50 then "good"
  else if callsPerMinute ≥ 30 then "warning"
  else "alert"

/-- The species list hard-coded in `getFallbackFrogAnalysis`. -/
def malaysianSpecies : List String :=
  ["Microhyla butleri", "Hylarana erythraea", "Fejervarya limnocharis"]

/-- `filename.split('').reduce((a, b) => a + b.charCodeAt(0), 0)`:
sum of character codes (the filenames involved are ASCII, where code
units and code points agree). -/
def filenameHash (s : String) : ℕ := s.data.foldl (fun a c => a + c.toNat) 0

/-- `AudioProcessor.getFallbackFrogAnalysis`: deterministic species-call
result derived from the filename. -/
def getFallbackFrogAnalysis (filename : String) : SanFrog :=
  let consistentSeed := filenameHash filename % 100
  let lower := toLowerStr filename
  let base : ℚ × ℕ × ℚ :=
    if strIncludes lower "serdang" || strIncludes lower "good" then (62, 3, 0.89)
    else if strIncludes lower "kampung" || strIncludes lower "warning" then (38, 2, 0.76)
    else if strIncludes lower "sekinchan" || strIncludes lower "poor" ||
        strIncludes lower "alert" then (23, 1, 0.65)
    else (35, 2, 0.75)
  let variation : ℤ := (consistentSeed % 6 : ℤ) - 3
  let callDensity : ℚ := max 5 (min 80 (base.1 + (variation : ℚ)))
  { species_detected := malaysianSpecies.take base.2.1
    species := malaysianSpecies.take base.2.1
    call_density := callDensity
    call_count := callDensity
    confidence_score := base.2.2
    confidence := base.2.2
    water_quality_indicator := determineWaterQuality callDensity }

/-- `AudioProcessor.getFallbackEnvironmentalAnalysis`: deterministic
environmental result.  (The source computes a `consistentSeed` from
`Date.now()` but never uses it; the result depends only on the optional
filename.)  `filename?.toLowerCase().includes(...)` is `false` when the
filename is absent, which `strIncludes "" pat = false` reproduces. -/
def getFallbackEnvironmentalAnalysis (filename : Option String) : SanEnv :=
  let lower := toLowerStr (filename.getD "")
  let pair : ℚ × ℚ :=
    if strIncludes lower "serdang" || strIncludes lower "good" then (0.78, 0.15)
    else if strIncludes lower "kampung" || strIncludes lower "warning" then (0.52, 0.45)
    else if strIncludes lower "sekinchan" || strIncludes lower "poor" then (0.28, 0.35)
    else (0.5, 0.3)
  { biodiversity_score := pair.1
    habitat_quality :=
      if pair.1 > 0.6 then "good" else if pair.1 > 0.4 then "fair" else "poor"
    noise_pollution_level := pair.2
    ecosystem_health :=
      if pair.1 > 0.6 then "healthy" else if pair.1 > 0.4 then "stressed" else "degraded"
    recommendations :=
      ["Monitor water quality regularly",
       "Consider sustainable farming practices",
       "Support local biodiversity through habitat preservation"] }

/-- The `['good','warning','alert'].includes(x)` check. -/
def wqiValid (x : Option String) : Bool :=
  match x with
  | some s => s = "good" || s = "warning" || s = "alert"
  | none => false

/-- `AudioProcessor.validateAndSanitizeFrogAnalysis`.  `none` for the whole
input models a value that is not an object (the `!analysis || typeof
analysis !== 'object'` guard), which falls back. -/
def sanitizeFrog (raw : Option RawFrog) (filename : String) : SanFrog :=
  match raw with
  | none => getFallbackFrogAnalysis filename
  | some a =>
    { species_detected := ((a.species_detected).orElse (fun _ => a.species)).getD []
      species := ((a.species).orElse (fun _ => a.species_detected)).getD []
      call_density := numOr a.call_density a.call_count 30
      call_count := numOr a.call_count a.call_density 30
      confidence_score := numOr a.confidence_score a.confidence 0.75
      confidence := numOr a.confidence a.confidence_score 0.75
      water_quality_indicator :=
        if wqiValid a.water_quality_indicator then (a.water_quality_indicator).getD ""
        else determineWaterQuality (falsyChain a.call_density a.call_count 30) }

/-- `AudioProcessor.validateAndSanitizeEnvironmentalAnalysis`.  The
`recommendations.filter(r => typeof r === 'string')` step is the identity
in this typed model. -/
def sanitizeEnv (raw : Option RawEnv) : SanEnv :=
  match raw with
  | none => getFallbackEnvironmentalAnalysis none
  | some a =>
    { biodiversity_score :=
        match a.biodiversity_score with
        | some v => max 0 (min 1 v)
        | none => 0.5
      habitat_quality :=
        match a.habitat_quality with
        | some s => if s = "excellent" || s = "good" || s = "fair" || s = "poor" then s
            else "fair"
        | none => "fair"
      noise_pollution_level :=
        match a.noise_pollution_level with
        | some v => max 0 (min 1 v)
        | none => 0.3
      ecosystem_health :=
        match a.ecosystem_health with
        | some s => if s = "healthy" || s = "stressed" || s = "degraded" then s
            else "stressed"
        | none => "stressed"
      recommendations := (a.recommendations).getD ["Monitor ecosystem health regularly"] }

/-- `Math.max(0, Math.min(80, Math.round(f.call_density || f.call_count || 0)))`,
computed identically at `processAudio` line 94 and inside
`generateWaterQualityAssessment` (lines 161-164). -/
def clampedCallDensityZ (f : SanFrog) : ℤ :=
  max 0 (min 80 (jsRound (jsOr f.call_density (jsOr f.call_count 0))))

/-- The clamped call density as a rational, as used by the fusion. -/
def fusionCallDensity (f : SanFrog) : ℚ := (clampedCallDensityZ f : ℚ)

/-- `const biodiversityScore = environmentalAnalysis.biodiversity_score || 0.5`
inside `generateWaterQualityAssessment`. -/
def fusionBiodiversity (e : SanEnv) : ℚ := jsOr e.biodiversity_score 0.5

/-- The frog sub-score of the fusion (weight 0.4 branch). -/
def frogScoreOf (f : SanFrog) : ℚ :=
  if fusionCallDensity f ≥ 50 then 1
  else if fusionCallDensity f ≥ 30 then 0.6
  else 0.2

/-- `const ecosystemHealth = environmentalAnalysis.ecosystem_health || 'stressed'`. -/
def envHealthOf (e : SanEnv) : String := jsOrStr e.ecosystem_health "stressed"

/-- The environment sub-score of the fusion (weight 0.3 branch). -/
def envScoreOf (e : SanEnv) : ℚ :=
  if envHealthOf e = "healthy" then 1
  else if envHealthOf e = "stressed" then 0.5
  else 0.2

/-- `(frogScore * 0.4) + (biodiversityScore * 0.3) + (environmentScore * 0.3)`:
the overall score before rounding. -/
def rawOverallScore (f : SanFrog) (e : SanEnv) : ℚ :=
  frogScoreOf f * 0.4 + fusionBiodiversity e * 0.3 + envScoreOf e * 0.3

/-- The status, computed from the unrounded overall score. -/
def statusOf (f : SanFrog) (e : SanEnv) : String :=
  if rawOverallScore f e ≥ 0.7 then "good"
  else if rawOverallScore f e ≥ 0.4 then "warning"
  else "alert"

/-- Result record of `generateWaterQualityAssessment`. -/
structure WQA where
  overall_score : ℚ
  status : String
  factors : List String
  farmer_recommendations : List String
deriving DecidableEq

/-- The `factors` list assembled by `generateWaterQualityAssessment`,
in push order. -/
def wqaFactors (f : SanFrog) (e : SanEnv) : List String :=
  let cd := toString (clampedCallDensityZ f)
  (if fusionCallDensity f ≥ 50 then
    ["High frog activity (" ++ cd ++ " calls/min) indicates healthy water"]
   else if fusionCallDensity f ≥ 30 then
    ["Moderate frog activity (" ++ cd ++ " calls/min) suggests adequate water quality"]
   else
    ["Low frog activity (" ++ cd ++ " calls/min) may indicate water quality issues"]) ++
  (if fusionBiodiversity e ≥ 0.7 then
    ["High biodiversity indicates healthy ecosystem"]
   else if fusionBiodiversity e ≥ 0.4 then
    ["Moderate biodiversity - ecosystem under some stress"]
   else
    ["Low biodiversity suggests ecosystem degradation"]) ++
  (if envHealthOf e = "healthy" then
    ["Healthy ecosystem conditions detected"]
   else if envHealthOf e = "stressed" then
    ["Ecosystem shows signs of stress"]
   else
    ["Ecosystem appears degraded"])

/-- The `recommendations` list assembled by `generateWaterQualityAssessment`,
in push order.  `frogAnalysis.species_detected || frogAnalysis.species || []`
takes the first operand because sanitized arrays are always truthy. -/
def wqaRecommendations (f : SanFrog) (e : SanEnv) : List String :=
  (if fusionCallDensity f ≥ 50 then []
   else if fusionCallDensity f ≥ 30 then
    ["Monitor water conditions and consider reducing chemical inputs"]
   else
    ["Check water pH, dissolved oxygen, and chemical contamination",
     "Consider immediate water quality testing"]) ++
  (if fusionBiodiversity e ≥ 0.7 then []
   else if fusionBiodiversity e ≥ 0.4 then
    ["Implement sustainable farming practices to support biodiversity"]
   else
    ["Urgent need for ecosystem restoration measures"]) ++
  (if envHealthOf e = "healthy" then []
   else if envHealthOf e = "stressed" then
    ["Reduce environmental stressors and monitor closely"]
   else
    ["Implement immediate conservation measures"]) ++
  (if f.species_detected.length > 0 then
    [toString f.species_detected.length ++
      " frog species detected - maintain current habitat conditions"]
   else
    ["No frog species clearly identified - consider improving habitat conditions"])

/-- `AudioProcessor.generateWaterQualityAssessment` on sanitized inputs.
(The `!frogAnalysis || !environmentalAnalysis` guard of the source is
unreachable on the `processAudio` path, where both arguments come out of
the sanitizers; this model covers exactly that path.) -/
def generateWaterQualityAssessment (f : SanFrog) (e : SanEnv) : WQA :=
  { overall_score := (jsRound (rawOverallScore f e * 100) : ℚ) / 100
    status := statusOf f e
    factors := wqaFactors f e
    farmer_recommendations := wqaRecommendations f e }

/-- The `frog_analysis` block of the final `ComprehensiveAnalysis`. -/
structure FrogAnalysisOut where
  species_detected : List String
  call_density : ℚ
  confidence_score : ℚ
  water_quality_indicator : String
deriving DecidableEq

/-- The `environmental_analysis` block of the final `ComprehensiveAnalysis`. -/
structure EnvAnalysisOut where
  biodiversity_score : ℚ
  habitat_quality : String
  noise_pollution_level : ℚ
  ecosystem_health : String
  recommendations : List String
deriving DecidableEq

/-- The assessment assembled by `processAudio` (the identifier, timestamp,
audio metadata and location blocks carry no analysis content and are
omitted). -/
structure ComprehensiveAnalysis where
  frog_analysis : FrogAnalysisOut
  environmental_analysis : EnvAnalysisOut
  water_quality_assessment : WQA
deriving DecidableEq

/-- Lines 94-123 of `processAudio`: assemble the analysis record from the
sanitized branch results. -/
def buildAnalysis (safeF : SanFrog) (safeE : SanEnv) : ComprehensiveAnalysis :=
  let cd : ℚ := (clampedCallDensityZ safeF : ℚ)
  { frog_analysis :=
    { species_detected := safeF.species_detected
      call_density := cd
      confidence_score := max 0.1 (min 1 (jsOr safeF.confidence_score (jsOr safeF.confidence 0.5)))
      water_quality_indicator :=
        jsOrStr safeF.water_quality_indicator (determineWaterQuality cd) }
    environmental_analysis :=
    { biodiversity_score := max 0 (min 1 (jsOr safeE.biodiversity_score 0.5))
      habitat_quality := jsOrStr safeE.habitat_quality "fair"
      noise_pollution_level := max 0 (min 1 (jsOr safeE.noise_pollution_level 0.3))
      ecosystem_health := jsOrStr safeE.ecosystem_health "stressed"
      recommendations := safeE.recommendations }
    water_quality_assessment := generateWaterQualityAssessment safeF safeE }

/-- Embed a sanitized frog result back into the raw shape (the fallback
object produced in the catch handler has every field present). -/
def rawOfSanFrog (f : SanFrog) : RawFrog :=
  { species_detected := some f.species_detected
    species := some f.species
    call_density := some f.call_density
    call_count := some f.call_count
    confidence_score := some f.confidence_score
    confidence := some f.confidence
    water_quality_indicator := some f.water_quality_indicator }

/-- Embed a sanitized environmental result back into the raw shape. -/
def rawOfSanEnv (e : SanEnv) : RawEnv :=
  { biodiversity_score := some e.biodiversity_score
    habitat_quality := some e.habitat_quality
    noise_pollution_level := some e.noise_pollution_level
    ecosystem_health := some e.ecosystem_health
    recommendations := some e.recommendations }

/-- The `.catch` wrapper of the NatureLM branch in `processAudio`: an
analyzer failure is replaced by the filename-derived fallback. -/
def resolveFrog (out : Except String (Option RawFrog)) (filename : String) : Option RawFrog :=
  match out with
  | Except.ok v => v
  | Except.error _ => some (rawOfSanFrog (getFallbackFrogAnalysis filename))

/-- The `.catch` wrapper of the AVES branch in `processAudio`. -/
def resolveEnv (out : Except String (Option RawEnv)) (filename : String) : Option RawEnv :=
  match out with
  | Except.ok v => v
  | Except.error _ => some (rawOfSanEnv (getFallbackEnvironmentalAnalysis (some filename)))

/-- `processAudio` as a function of the two analyzer outcomes (success
with an arbitrary raw value, or a thrown error) and the filename: resolve
each branch through its catch handler, sanitize, fuse, assemble. -/
def processAudioAnalysis (frogOut : Except String (Option RawFrog))
    (envOut : Except String (Option RawEnv)) (filename : String) : ComprehensiveAnalysis :=
  buildAnalysis (sanitizeFrog (resolveFrog frogOut filename) filename)
    (sanitizeEnv (resolveEnv envOut filename))

/-- `AudioProcessor.storeAnalysis` update of the `historical_analyses`
list: `recent.unshift(id); if (recent.length > 50) recent.splice(50)`. -/
def storeAnalysisHistory (recent : List String) (id : String) : List String :=
  let r := id :: recent
  if r.length > 50 then r.take 50 else r

/-- The audio analyze endpoint update of the `recent_analyses` list
(`index.tsx` lines 241-249): unshift, then keep only the first 20. -/
def endpointRecentUpdate (recent : List String) (id : String) : List String :=
  let r := id :: recent
  if r.length > 20 then r.take 20 else r

/-- `n` successive `storeAnalysis` history updates starting from an empty
store, with distinct ids `"0", "1", ...`. -/
def storeIterate : ℕ → List String
  | 0 => []
  | n + 1 => storeAnalysisHistory (storeIterate n) (toString n)

/-- `n` successive endpoint `recent_analyses` updates starting from an
empty store, with distinct ids `"0", "1", ...`. -/
def endpointIterate : ℕ → List String
  | 0 => []
  | n + 1 => endpointRecentUpdate (endpointIterate n) (toString n)

/-- An alert record created by `checkAndCreateAlerts` (the timestamp
string is omitted; the `Date.now()` id component is the `now` argument). -/
structure AlertRec where
  id : String
  type : String
  severity : String
  title : String
  message : String
  recommendations : List String
  analysis_id : String
deriving DecidableEq

/-- The alerts freshly created for one assessment by
`checkAndCreateAlerts` (at most one per rule, water quality first). -/
def createdAlerts (a : ComprehensiveAnalysis) (analysisId : String) (now : ℕ) : List AlertRec :=
  (if a.water_quality_assessment.status = "alert" then
    [{ id := "alert_" ++ toString now ++ "_water_quality"
       type := "water_quality"
       severity := "high"
       title := "Critical Water Quality Alert"
       message := "Very low frog activity detected (" ++
         toString a.frog_analysis.call_density ++ " calls/min). Immediate attention required."
       recommendations := a.water_quality_assessment.farmer_recommendations
       analysis_id := analysisId }]
   else []) ++
  (if a.environmental_analysis.biodiversity_score < 0.3 then
    [{ id := "alert_" ++ toString now ++ "_biodiversity"
       type := "biodiversity"
       severity := "medium"
       title := "Low Biodiversity Alert"
       message := "Ecosystem biodiversity is critically low. Consider conservation measures."
       recommendations := a.environmental_analysis.recommendations
       analysis_id := analysisId }]
   else [])

/-- `AudioProcessor.checkAndCreateAlerts` effect on the stored
`active_alerts` list: `[...alerts, ...existingAlerts].slice(0, 20)`,
written only when at least one alert was created. -/
def checkAndCreateAlerts (a : ComprehensiveAnalysis) (analysisId : String) (now : ℕ)
    (existing : List AlertRec) : List AlertRec :=
  let alerts := createdAlerts a analysisId now
  if alerts.length > 0 then (alerts ++ existing).take 20 else existing

/-- `processAudio` as a request: its outer try/catch never fires because
both analyzer branches carry their own `.catch`, sanitization is total,
and `storeAnalysis` / `checkAndCreateAlerts` swallow their own errors.
The run therefore returns the computed assessment for every analyzer and
storage outcome; a failed kv write (`storeKvOk = false`) leaves the
history unchanged and is not propagated. -/
def processAudioRun (frogOut : Except String (Option RawFrog))
    (envOut : Except String (Option RawEnv)) (filename analysisId : String)
    (storeKvOk : Bool) (hist : List String) :
    Except String ComprehensiveAnalysis × List String :=
  let analysis := processAudioAnalysis frogOut envOut filename
  let hist1 := if storeKvOk then storeAnalysisHistory hist analysisId else hist
  (Except.ok analysis, hist1)

/-- Response of the audio analyze endpoint (`index.tsx` lines 229-271):
either the success JSON carrying the analysis, or the catch-all 500. -/
structure HandlerResponse where
  success : Bool
  analysis : Option ComprehensiveAnalysis
  status : ℕ
deriving DecidableEq

/-- The tail of the analyze endpoint after preprocessing/validation:
run `processAudio` (total), then perform the endpoint's own
`kv.get`/`kv.set` of `recent_analyses`; if that persistence step throws
(`endpointKvOk = false`), the surrounding catch returns a 500 error
response without the analysis. -/
def analyzeEndpoint (frogOut : Except String (Option RawFrog))
    (envOut : Except String (Option RawEnv)) (filename : String)
    (endpointKvOk : Bool) : HandlerResponse :=
  if endpointKvOk then
    { success := true
      analysis := some (processAudioAnalysis frogOut envOut filename)
      status := 200 }
  else
    { success := false, analysis := none, status := 500 }

/-! ### Notification system (`NotificationSystem`) -/

/-- A configured channel config object. -/
structure ChannelConfig where
  email : Option String
  phone : Option String
deriving DecidableEq

/-- One entry of `preferences.channels`. -/
structure Channel where
  type : String
  enabled : Bool
  config : Option ChannelConfig
deriving DecidableEq

/-- `preferences.alert_types`. -/
structure AlertTypes where
  water_quality_critical : Bool
  water_quality_warning : Bool
  biodiversity_low : Bool
  system_updates : Bool
  daily_summary : Bool
deriving DecidableEq

/-- `preferences.quiet_hours`. -/
structure QuietHours where
  enabled : Bool
  start_time : String
  end_time : String
deriving DecidableEq

/-- `NotificationPreferences`. -/
structure NotificationPreferences where
  channels : List Channel
  alert_types : AlertTypes
  quiet_hours : QuietHours
deriving DecidableEq

/-- `NotificationPayload` (fields the dispatcher inspects). -/
structure NotificationPayload where
  type : String
  severity : String
  title : String
  message : String
deriving DecidableEq

/-- Result of `sendNotification`. -/
structure NotifResult where
  sent : List String
  failed : List String
  in_quiet_hours : Bool
deriving DecidableEq

/-- `"HH:MM".split(':').map(Number)` turned into minutes. -/
def parseTimeMinutes (s : String) : ℕ :=
  let parts := splitChars ':' s.data
  ((parts.head?.bind parseNatChars).getD 0) * 60 +
    (((parts.get? 1).bind parseNatChars).getD 0)

/-- `NotificationSystem.isInQuietHours`, with the current wall-clock time
passed explicitly as minutes since midnight. -/
def isInQuietHours (p : NotificationPreferences) (now : ℕ) : Bool :=
  if p.quiet_hours.enabled = false then false
  else
    let startTime := parseTimeMinutes p.quiet_hours.start_time
    let endTime := parseTimeMinutes p.quiet_hours.end_time
    if startTime > endTime then decide (now ≥ startTime) || decide (now ≤ endTime)
    else decide (now ≥ startTime) && decide (now ≤ endTime)

/-- `NotificationSystem.isAlertTypeEnabled`. -/
def isAlertTypeEnabled (alertType : String) (p : NotificationPreferences) : Bool :=
  if alertType = "water_quality" then
    p.alert_types.water_quality_critical || p.alert_types.water_quality_warning
  else if alertType = "biodiversity" then p.alert_types.biodiversity_low
  else if alertType = "system" then p.alert_types.system_updates
  else if alertType = "summary" then p.alert_types.daily_summary
  else true

/-- JS truthiness of an optional string field (`config?.email`). -/
def truthyStr (x : Option String) : Bool :=
  match x with
  | some s => s ≠ ""
  | none => false

/-- One iteration of the channel loop of `sendNotification`.  `outcome t`
tells whether the awaited delivery call for channel type `t` completes
without throwing (the catch records the channel in `failed`).  An enabled
email/sms channel without a truthy address is skipped silently; a channel
of unknown type matches no switch case and is also skipped. -/
def channelStep (outcome : String → Bool) (acc : List String × List String)
    (c : Channel) : List String × List String :=
  if c.enabled = false then acc
  else if c.type = "in_app" then
    (if outcome "in_app" then (acc.1 ++ ["in_app"], acc.2) else (acc.1, acc.2 ++ ["in_app"]))
  else if c.type = "push" then
    (if outcome "push" then (acc.1 ++ ["push"], acc.2) else (acc.1, acc.2 ++ ["push"]))
  else if c.type = "email" then
    (if truthyStr ((c.config).bind ChannelConfig.email) then
      (if outcome "email" then (acc.1 ++ ["email"], acc.2) else (acc.1, acc.2 ++ ["email"]))
     else acc)
  else if c.type = "sms" then
    (if truthyStr ((c.config).bind ChannelConfig.phone) then
      (if outcome "sms" then (acc.1 ++ ["sms"], acc.2) else (acc.1, acc.2 ++ ["sms"]))
     else acc)
  else acc

/-- `NotificationSystem.sendNotification`, with the wall-clock time and
the per-channel delivery outcomes passed explicitly. -/
def sendNotification (payload : NotificationPayload) (p : NotificationPreferences)
    (now : ℕ) (outcome : String → Bool) : NotifResult :=
  if isInQuietHours p now = true ∧ payload.severity ≠ "critical" then
    { sent := [], failed := [], in_quiet_hours := true }
  else if isAlertTypeEnabled payload.type p = false then
    { sent := [], failed := [], in_quiet_hours := false }
  else
    let sf := p.channels.foldl (channelStep outcome) ([], [])
    { sent := sf.1, failed := sf.2, in_quiet_hours := false }

/-- Preferences with quiet hours switched off (used to state that a
critical payload is delivered exactly as if quiet hours did not exist). -/
def disableQuietHours (p : NotificationPreferences) : NotificationPreferences :=
  { p with quiet_hours := { p.quiet_hours with enabled := false } }

/-! ### Gemini assistant retry machinery (`GeminiChatAssistant`) -/

/-- `retryConfig.maxRetries`. -/
def geminiMaxRetries : ℕ := 3

/-- `retryConfig.baseDelay` (ms). -/
def geminiBaseDelay : ℚ := 1000

/-- `retryConfig.maxDelay` (ms). -/
def geminiMaxDelay : ℚ := 10000

/-- `retryConfig.backoffMultiplier`. -/
def geminiBackoffMultiplier : ℚ := 2

/-- `GeminiChatAssistant.calculateRetryDelay`, with the `Math.random()`
draw passed explicitly as `rand ∈ [0, 1)`. -/
def calculateRetryDelay (attempt : ℕ) (rand : ℚ) : ℚ :=
  let delay := geminiBaseDelay * geminiBackoffMultiplier ^ attempt
  let jitter := rand * 0.3 * delay
  min (delay + jitter) geminiMaxDelay

/-- `GeminiChatAssistant.isRetryableError`. -/
def isRetryableError (status : ℕ) (errorMessage : String) : Bool :=
  (decide (500 ≤ status) && decide (status < 600)) ||
  status == 429 ||
  status == 503 ||
  strIncludes (toLowerStr errorMessage) "overloaded" ||
  strIncludes (toLowerStr errorMessage) "rate limit" ||
  strIncludes (toLowerStr errorMessage) "temporarily unavailable"

/-- Outcome of one `fetch` of the Gemini endpoint: an ok response, a
non-ok HTTP response with status and error body, or a network-level
fetch `TypeError`. -/
inductive ReqOutcome where
  | ok : ReqOutcome
  | httpErr : ℕ → String → ReqOutcome
  | netErr : ReqOutcome
deriving DecidableEq

/-- `GeminiChatAssistant.makeGeminiRequest`: recursive retry loop over a
stream of per-attempt outcomes.  Success returns the index of the winning
attempt; exhaustion or a non-retryable failure returns the terminating
outcome (the thrown error). -/
def makeGeminiRequest (o : ℕ → ReqOutcome) (attempt : ℕ) : Except ReqOutcome ℕ :=
  match o attempt with
  | ReqOutcome.ok => Except.ok attempt
  | ReqOutcome.httpErr s b =>
    if h : attempt < geminiMaxRetries ∧ isRetryableError s b = true then
      makeGeminiRequest o (attempt + 1)
    else Except.error (ReqOutcome.httpErr s b)
  | ReqOutcome.netErr =>
    if h : attempt < geminiMaxRetries then
      makeGeminiRequest o (attempt + 1)
    else Except.error ReqOutcome.netErr
termination_by geminiMaxRetries + 1 - attempt
decreasing_by
  all_goals simp [geminiMaxRetries] at *
  all_goals omega

/-! ### Claim-side (spec-worded) fusion formula, for the refinement
comparison of claim C2 -/

/-- Spec-side frog sub-score, following the claim text: 1.0 if the clamped
call density is at least 50, 0.6 if at least 30, else 0.2. -/
def claimFrogScore (d : ℚ) : ℚ :=
  if 50 ≤ d then 1 else if 30 ≤ d then 0.6 else 0.2

/-- Spec-side environment sub-score, following the claim text: 1.0 when
ecosystem health is healthy, 0.5 when stressed, 0.2 otherwise. -/
def claimEnvScore (h : String) : ℚ :=
  if h = "healthy" then 1 else if h = "stressed" then 0.5 else 0.2

/-- Spec-side fused overall score, following the claim text:
`0.4 * frog_score + 0.3 * biodiversity_score + 0.3 * environment_score`. -/
def claimOverallScore (d bio : ℚ) (h : String) : ℚ :=
  0.4 * claimFrogScore d + 0.3 * bio + 0.3 * claimEnvScore h

/-- Schema validity of an assembled assessment: every field is present
with its value inside the documented range / enumeration. -/
def schemaValid (a : ComprehensiveAnalysis) : Prop :=
  0 ≤ a.frog_analysis.call_density ∧ a.frog_analysis.call_density ≤ 80 ∧
  0.1 ≤ a.frog_analysis.confidence_score ∧ a.frog_analysis.confidence_score ≤ 1 ∧
  a.frog_analysis.water_quality_indicator ∈ (["good", "warning", "alert"] : List String) ∧
  0 ≤ a.environmental_analysis.biodiversity_score ∧
  a.environmental_analysis.biodiversity_score ≤ 1 ∧
  0 ≤ a.environmental_analysis.noise_pollution_level ∧
  a.environmental_analysis.noise_pollution_level ≤ 1 ∧
  a.environmental_analysis.habitat_quality ∈ (["excellent", "good", "fair", "poor"] : List String) ∧
  a.environmental_analysis.ecosystem_health ∈ (["healthy", "stressed", "degraded"] : List String) ∧
  a.water_quality_assessment.status ∈ (["good", "warning", "alert"] : List String) ∧
  0 ≤ a.water_quality_assessment.overall_score ∧
  a.water_quality_assessment.overall_score ≤ 1

/-! ### Concrete inputs used by counterexamples and witnesses -/

/-- A well-formed raw species-call result with call density 60. -/
def cxFrogRaw : Option RawFrog :=
  some ⟨some ["Microhyla butleri"], none, some 60, none, some 0.9, none, some "good"⟩

/-- Its sanitized form. -/
def cxFrog : SanFrog := sanitizeFrog cxFrogRaw "field.wav"

/-- A raw environmental result whose biodiversity score sanitizes to
exactly 0 (clamped from -5), with healthy ecosystem. -/
def cxEnvZeroRaw : Option RawEnv :=
  some ⟨some (-5), some "good", some 0.2, some "healthy", some []⟩

/-- A raw environmental result with biodiversity score 0.499 and a
stressed ecosystem: the unrounded fusion lands at 0.6997. -/
def cxEnvNearRaw : Option RawEnv :=
  some ⟨some (499/1000), some "good", some 0.2, some "stressed", some []⟩

/-- A concrete assessment with alert status and biodiversity score 0,
used to instantiate the alert-rule theorem. -/
def alertAnalysis : ComprehensiveAnalysis :=
  ⟨⟨[], 10, 0.5, "alert"⟩, ⟨0, "poor", 0, "degraded", []⟩, ⟨0.3, "alert", [], []⟩⟩

/-- Preferences with one enabled in-app channel and quiet hours 22:00
through 06:00. -/
def qhPrefs : NotificationPreferences :=
  ⟨[⟨"in_app", true, none⟩], ⟨true, true, true, false, false⟩, ⟨true, "22:00", "06:00"⟩⟩

/-- A high-severity (non-critical) water-quality payload. -/
def warnPayload : NotificationPayload :=
  ⟨"water_quality", "high", "Water quality warning", "check your field"⟩

/-- A critical-severity water-quality payload. -/
def critPayload : NotificationPayload :=
  ⟨"water_quality", "critical", "Critical water quality", "act now"⟩

/-- An enabled in-app channel. -/
def inAppCh : Channel := ⟨"in_app", true, none⟩

/-- An enabled email channel with no config at all. -/
def emailNoCfg : Channel := ⟨"email", true, none⟩

/-- Preferences whose channel list is the in-app channel followed by the
config-less email channel, quiet hours disabled. -/
def c10Prefs : NotificationPreferences :=
  ⟨[inAppCh, emailNoCfg], ⟨true, true, true, false, false⟩, ⟨false, "22:00", "06:00"⟩⟩

/-! ### Helper lemmas -/

theorem determineWaterQuality_mem (c : ℚ) :
    determineWaterQuality c ∈ (["good", "warning", "alert"] : List String) := by
  unfold determineWaterQuality
  split_ifs <;> simp

theorem sanitizeFrog_wqi_mem (r : Option RawFrog) (fn : String) :
    (sanitizeFrog r fn).water_quality_indicator ∈ (["good", "warning", "alert"] : List String) := by
  cases r with
  | none =>
    show (getFallbackFrogAnalysis fn).water_quality_indicator ∈ _
    unfold getFallbackFrogAnalysis
    exact determineWaterQuality_mem _
  | some a =>
    show (if wqiValid a.water_quality_indicator then (a.water_quality_indicator).getD ""
      else determineWaterQuality _) ∈ _
    split_ifs with h
    · cases hx : a.water_quality_indicator with
      | none => rw [hx] at h; simp [wqiValid] at h
      | some s =>
        rw [hx] at h
        simp only [wqiValid, Bool.or_eq_true, decide_eq_true_eq] at h
        rcases h with (h | h) | h <;> simp [h]
    · exact determineWaterQuality_mem _

theorem getFallbackEnv_eco_mem (fn : Option String) :
    (getFallbackEnvironmentalAnalysis fn).ecosystem_health ∈
      (["healthy", "stressed", "degraded"] : List String) := by
  unfold getFallbackEnvironmentalAnalysis
  dsimp only
  split_ifs <;> simp

theorem getFallbackEnv_habitat_mem (fn : Option String) :
    (getFallbackEnvironmentalAnalysis fn).habitat_quality ∈
      (["excellent", "good", "fair", "poor"] : List String) := by
  unfold getFallbackEnvironmentalAnalysis
  dsimp only
  split_ifs <;> simp

theorem getFallbackEnv_bio_bounds (fn : Option String) :
    0 ≤ (getFallbackEnvironmentalAnalysis fn).biodiversity_score ∧
      (getFallbackEnvironmentalAnalysis fn).biodiversity_score ≤ 1 := by
  unfold getFallbackEnvironmentalAnalysis
  dsimp only
  split_ifs <;> norm_num

theorem getFallbackEnv_noise_bounds (fn : Option String) :
    0 ≤ (getFallbackEnvironmentalAnalysis fn).noise_pollution_level ∧
      (getFallbackEnvironmentalAnalysis fn).noise_pollution_level ≤ 1 := by
  unfold getFallbackEnvironmentalAnalysis
  dsimp only
  split_ifs <;> norm_num

theorem sanitizeEnv_eco_mem (r : Option RawEnv) :
    (sanitizeEnv r).ecosystem_health ∈ (["healthy", "stressed", "degraded"] : List String) := by
  cases r with
  | none => exact getFallbackEnv_eco_mem none
  | some a =>
    show (match a.ecosystem_health with
      | some s => if s = "healthy" || s = "stressed" || s = "degraded" then s else "stressed"
      | none => "stressed") ∈ _
    cases hx : a.ecosystem_health with
    | none => simp
    | some s =>
      simp only []
      split_ifs with h
      · simp only [Bool.or_eq_true, decide_eq_true_eq] at h
        rcases h with (h | h) | h <;> simp [h]
      · simp

theorem sanitizeEnv_habitat_mem (r : Option RawEnv) :
    (sanitizeEnv r).habitat_quality ∈ (["excellent", "good", "fair", "poor"] : List String) := by
  cases r with
  | none => exact getFallbackEnv_habitat_mem none
  | some a =>
    show (match a.habitat_quality with
      | some s => if s = "excellent" || s = "good" || s = "fair" || s = "poor" then s else "fair"
      | none => "fair") ∈ _
    cases hx : a.habitat_quality with
    | none => simp
    | some s =>
      simp only []
      split_ifs with h
      · simp only [Bool.or_eq_true, decide_eq_true_eq] at h
        rcases h with ((h | h) | h) | h <;> simp [h]
      · simp

theorem sanitizeEnv_bio_bounds (r : Option RawEnv) :
    0 ≤ (sanitizeEnv r).biodiversity_score ∧ (sanitizeEnv r).biodiversity_score ≤ 1 := by
  cases r with
  | none => exact getFallbackEnv_bio_bounds none
  | some a =>
    unfold sanitizeEnv
    dsimp only
    cases a.biodiversity_score with
    | none => norm_num
    | some v =>
      refine ⟨le_max_left 0 _, ?_⟩
      exact max_le (by norm_num) (min_le_left 1 v)

theorem sanitizeEnv_noise_bounds (r : Option RawEnv) :
    0 ≤ (sanitizeEnv r).noise_pollution_level ∧ (sanitizeEnv r).noise_pollution_level ≤ 1 := by
  cases r with
  | none => exact getFallbackEnv_noise_bounds none
  | some a =>
    unfold sanitizeEnv
    dsimp only
    cases a.noise_pollution_level with
    | none => norm_num
    | some v =>
      refine ⟨le_max_left 0 _, ?_⟩
      exact max_le (by norm_num) (min_le_left 1 v)

theorem mem_wq_ne_empty {s : String}
    (h : s ∈ (["good", "warning", "alert"] : List String)) : s ≠ "" := by
  fin_cases h <;> decide

theorem mem_eco_ne_empty {s : String}
    (h : s ∈ (["healthy", "stressed", "degraded"] : List String)) : s ≠ "" := by
  fin_cases h <;> decide

theorem mem_habitat_ne_empty {s : String}
    (h : s ∈ (["excellent", "good", "fair", "poor"] : List String)) : s ≠ "" := by
  fin_cases h <;> decide

theorem jsOrStr_of_ne_empty {s : String} (d : String) (h : s ≠ "") : jsOrStr s d = s := by
  unfold jsOrStr
  exact if_neg h

theorem clampedCallDensityZ_bounds (f : SanFrog) :
    0 ≤ clampedCallDensityZ f ∧ clampedCallDensityZ f ≤ 80 := by
  unfold clampedCallDensityZ
  exact ⟨le_max_left 0 _, max_le (by norm_num) (min_le_left 80 _)⟩

theorem fusionCallDensity_bounds (f : SanFrog) :
    0 ≤ fusionCallDensity f ∧ fusionCallDensity f ≤ 80 := by
  have h := clampedCallDensityZ_bounds f
  unfold fusionCallDensity
  exact ⟨by exact_mod_cast h.1, by exact_mod_cast h.2⟩

theorem fusionBiodiversity_bounds (r : Option RawEnv) :
    0 ≤ fusionBiodiversity (sanitizeEnv r) ∧ fusionBiodiversity (sanitizeEnv r) ≤ 1 := by
  have h := sanitizeEnv_bio_bounds r
  unfold fusionBiodiversity jsOr
  split_ifs with hz
  · norm_num
  · exact h

theorem frogScoreOf_bounds (f : SanFrog) : 0.2 ≤ frogScoreOf f ∧ frogScoreOf f ≤ 1 := by
  unfold frogScoreOf
  split_ifs <;> norm_num

theorem envScoreOf_bounds (e : SanEnv) : 0.2 ≤ envScoreOf e ∧ envScoreOf e ≤ 1 := by
  unfold envScoreOf
  split_ifs <;> norm_num

theorem rawOverallScore_bounds (f : SanFrog) (r : Option RawEnv) :
    0 ≤ rawOverallScore f (sanitizeEnv r) ∧ rawOverallScore f (sanitizeEnv r) ≤ 1 := by
  have hf := frogScoreOf_bounds f
  have hb := fusionBiodiversity_bounds r
  have he := envScoreOf_bounds (sanitizeEnv r)
  unfold rawOverallScore
  constructor <;> nlinarith [hf.1, hf.2, hb.1, hb.2, he.1, he.2]

theorem jsRound_nonneg {q : ℚ} (h : 0 ≤ q) : 0 ≤ jsRound q := by
  unfold jsRound
  exact Int.le_floor.mpr (by push_cast; linarith)

theorem jsRound_le_100 {q : ℚ} (h : q ≤ 100) : jsRound q ≤ 100 := by
  unfold jsRound
  have h2 : (⌊q + 1/2⌋ : ℚ) ≤ 100 + 1/2 := le_trans (Int.floor_le _) (by linarith)
  have h3 : (⌊q + 1/2⌋ : ℚ) < 101 := lt_of_le_of_lt h2 (by norm_num)
  exact_mod_cast Int.lt_add_one_iff.mp (by exact_mod_cast h3)

theorem overall_score_bounds (f : SanFrog) (r : Option RawEnv) :
    0 ≤ (generateWaterQualityAssessment f (sanitizeEnv r)).overall_score ∧
      (generateWaterQualityAssessment f (sanitizeEnv r)).overall_score ≤ 1 := by
  have hb := rawOverallScore_bounds f r
  show 0 ≤ (jsRound (rawOverallScore f (sanitizeEnv r) * 100) : ℚ) / 100 ∧
    (jsRound (rawOverallScore f (sanitizeEnv r) * 100) : ℚ) / 100 ≤ 1
  have h1 : 0 ≤ jsRound (rawOverallScore f (sanitizeEnv r) * 100) :=
    jsRound_nonneg (by nlinarith [hb.1])
  have h2 : jsRound (rawOverallScore f (sanitizeEnv r) * 100) ≤ 100 :=
    jsRound_le_100 (by nlinarith [hb.2])
  constructor
  · positivity
  · rw [div_le_one (by norm_num)]
    exact_mod_cast h2

theorem statusOf_mem (f : SanFrog) (e : SanEnv) :
    statusOf f e ∈ (["good", "warning", "alert"] : List String) := by
  unfold statusOf
  split_ifs <;> simp

theorem schemaValid_build (r : Option RawFrog) (re : Option RawEnv) (fn : String) :
    schemaValid (buildAnalysis (sanitizeFrog r fn) (sanitizeEnv re)) := by
  unfold schemaValid
  refine ⟨?_, ?_, ?_, ?_, ?_, ?_, ?_, ?_, ?_, ?_, ?_, ?_, ?_, ?_⟩
  · show (0 : ℚ) ≤ (clampedCallDensityZ (sanitizeFrog r fn) : ℚ)
    exact_mod_cast (clampedCallDensityZ_bounds _).1
  · show (clampedCallDensityZ (sanitizeFrog r fn) : ℚ) ≤ 80
    exact_mod_cast (clampedCallDensityZ_bounds _).2
  · exact le_max_left 0.1 _
  · exact max_le (by norm_num) (min_le_left 1 _)
  · show jsOrStr (sanitizeFrog r fn).water_quality_indicator _ ∈ _
    rw [jsOrStr_of_ne_empty _ (mem_wq_ne_empty (sanitizeFrog_wqi_mem r fn))]
    exact sanitizeFrog_wqi_mem r fn
  · exact le_max_left 0 _
  · exact max_le (by norm_num) (min_le_left 1 _)
  · exact le_max_left 0 _
  · exact max_le (by norm_num) (min_le_left 1 _)
  · show jsOrStr (sanitizeEnv re).habitat_quality "fair" ∈ _
    rw [jsOrStr_of_ne_empty _ (mem_habitat_ne_empty (sanitizeEnv_habitat_mem re))]
    exact sanitizeEnv_habitat_mem re
  · show jsOrStr (sanitizeEnv re).ecosystem_health "stressed" ∈ _
    rw [jsOrStr_of_ne_empty _ (mem_eco_ne_empty (sanitizeEnv_eco_mem re))]
    exact sanitizeEnv_eco_mem re
  · exact statusOf_mem (sanitizeFrog r fn) (sanitizeEnv re)
  · exact (overall_score_bounds (sanitizeFrog r fn) re).1
  · exact (overall_score_bounds (sanitizeFrog r fn) re).2

/-! ### Claim theorems -/

/-- Claim C1: for every analysis request, a raising species-call branch is
replaced by the deterministic filename-derived fallback while the sibling
environmental branch's result is unaffected (and symmetrically for a
raising environmental branch), and the orchestrator always returns a
complete, schema-valid assessment — an analyzer failure is never surfaced
as a failed request (the branch catch handlers make `processAudio` total
in the analyzer outcomes). -/
theorem c1_analyzer_fallback_isolation (fn : String)
    (frogOut : Except String (Option RawFrog)) (envOut : Except String (Option RawEnv))
    (frogErr envErr : String) :
    processAudioAnalysis (Except.error frogErr) envOut fn
      = processAudioAnalysis
          (Except.ok (some (rawOfSanFrog (getFallbackFrogAnalysis fn)))) envOut fn
    ∧ (processAudioAnalysis (Except.error frogErr) envOut fn).environmental_analysis
      = (processAudioAnalysis frogOut envOut fn).environmental_analysis
    ∧ processAudioAnalysis frogOut (Except.error envErr) fn
      = processAudioAnalysis frogOut
          (Except.ok (some (rawOfSanEnv (getFallbackEnvironmentalAnalysis (some fn))))) fn
    ∧ (processAudioAnalysis frogOut (Except.error envErr) fn).frog_analysis
      = (processAudioAnalysis frogOut envOut fn).frog_analysis
    ∧ schemaValid (processAudioAnalysis frogOut envOut fn) :=
  ⟨rfl, rfl, rfl, rfl, schemaValid_build (resolveFrog frogOut fn) (resolveEnv envOut fn) fn⟩

/-- Claim C4: for all analyzer outcomes (including missing, non-numeric or
out-of-range fields), the stored assessment has call density in [0, 80]
and biodiversity score in [0, 1], and the values consumed by the fusion
are clamped into those ranges as well. -/
theorem c4_clamped_ranges (frogOut : Except String (Option RawFrog))
    (envOut : Except String (Option RawEnv)) (fn : String) :
    (0 ≤ (processAudioAnalysis frogOut envOut fn).frog_analysis.call_density
      ∧ (processAudioAnalysis frogOut envOut fn).frog_analysis.call_density ≤ 80)
    ∧ (0 ≤ (processAudioAnalysis frogOut envOut fn).environmental_analysis.biodiversity_score
      ∧ (processAudioAnalysis frogOut envOut fn).environmental_analysis.biodiversity_score ≤ 1)
    ∧ (0 ≤ fusionCallDensity (sanitizeFrog (resolveFrog frogOut fn) fn)
      ∧ fusionCallDensity (sanitizeFrog (resolveFrog frogOut fn) fn) ≤ 80)
    ∧ (0 ≤ fusionBiodiversity (sanitizeEnv (resolveEnv envOut fn))
      ∧ fusionBiodiversity (sanitizeEnv (resolveEnv envOut fn)) ≤ 1) := by
  refine ⟨⟨?_, ?_⟩, ⟨?_, ?_⟩, fusionCallDensity_bounds _, fusionBiodiversity_bounds _⟩
  · show (0 : ℚ) ≤ (clampedCallDensityZ (sanitizeFrog (resolveFrog frogOut fn) fn) : ℚ)
    exact_mod_cast (clampedCallDensityZ_bounds _).1
  · show (clampedCallDensityZ (sanitizeFrog (resolveFrog frogOut fn) fn) : ℚ) ≤ 80
    exact_mod_cast (clampedCallDensityZ_bounds _).2
  · exact le_max_left 0 _
  · exact max_le (by norm_num) (min_le_left 1 _)

theorem cx_fusion_density : fusionCallDensity cxFrog = 60 := by
  have h1 : jsOr cxFrog.call_density (jsOr cxFrog.call_count 0) = 60 := by
    norm_num [cxFrog, cxFrogRaw, sanitizeFrog, numOr, jsOr]
  have h2 : clampedCallDensityZ cxFrog = 60 := by
    unfold clampedCallDensityZ
    rw [h1]
    have h3 : jsRound (60 : ℚ) = 60 := by norm_num [jsRound, Int.floor_eq_iff]
    rw [h3]
    decide
  unfold fusionCallDensity
  rw [h2]
  norm_num

theorem cx_frog_score : frogScoreOf cxFrog = 1 := by
  unfold frogScoreOf
  rw [cx_fusion_density]
  norm_num

/-- Claim C2 counterexample: for the sanitized pair with call density 60,
biodiversity score 0 (clamped from -5) and healthy ecosystem, the
returned overall score is 0.85 (the zero biodiversity score is replaced
by 0.5 through the JS falsy default), not the claimed weighted sum 0.7. -/
theorem c2_counterexample :
    (generateWaterQualityAssessment cxFrog (sanitizeEnv cxEnvZeroRaw)).overall_score
      ≠ claimOverallScore (fusionCallDensity cxFrog)
          (sanitizeEnv cxEnvZeroRaw).biodiversity_score
          (sanitizeEnv cxEnvZeroRaw).ecosystem_health := by
  have hbio : (sanitizeEnv cxEnvZeroRaw).biodiversity_score = 0 := by
    norm_num [sanitizeEnv, cxEnvZeroRaw, min_def, max_def]
  have heco : (sanitizeEnv cxEnvZeroRaw).ecosystem_health = "healthy" := by
    simp [sanitizeEnv, cxEnvZeroRaw]
  have hfb : fusionBiodiversity (sanitizeEnv cxEnvZeroRaw) = 0.5 := by
    unfold fusionBiodiversity
    rw [hbio]
    norm_num [jsOr]
  have hes : envScoreOf (sanitizeEnv cxEnvZeroRaw) = 1 := by
    unfold envScoreOf envHealthOf
    rw [heco]
    simp [jsOrStr]
  have hraw : rawOverallScore cxFrog (sanitizeEnv cxEnvZeroRaw) = 17/20 := by
    unfold rawOverallScore
    rw [cx_frog_score, hfb, hes]
    norm_num
  have hov : (generateWaterQualityAssessment cxFrog (sanitizeEnv cxEnvZeroRaw)).overall_score
      = 17/20 := by
    show (jsRound (rawOverallScore cxFrog (sanitizeEnv cxEnvZeroRaw) * 100) : ℚ) / 100 = 17/20
    rw [hraw]
    have h85 : jsRound ((17 : ℚ)/20 * 100) = 85 := by norm_num [jsRound, Int.floor_eq_iff]
    rw [h85]
    norm_num
  have hclaim : claimOverallScore (fusionCallDensity cxFrog)
      (sanitizeEnv cxEnvZeroRaw).biodiversity_score
      (sanitizeEnv cxEnvZeroRaw).ecosystem_health = 7/10 := by
    unfold claimOverallScore claimFrogScore claimEnvScore
    rw [cx_fusion_density, hbio, heco]
    norm_num
  rw [hov, hclaim]
  norm_num

/-- Claim C2 (amended): for every pair of sanitized analyzer results, the
returned overall score is the claimed weighted sum — with a sanitized
biodiversity score of exactly 0 first replaced by the 0.5 default —
rounded to two decimal places (`Math.round(x * 100) / 100`). -/
theorem c2_fused_score_formula (rawF : Option RawFrog) (rawE : Option RawEnv) (fn : String) :
    (generateWaterQualityAssessment (sanitizeFrog rawF fn) (sanitizeEnv rawE)).overall_score
      = (jsRound (100 * claimOverallScore (fusionCallDensity (sanitizeFrog rawF fn))
          (jsOr (sanitizeEnv rawE).biodiversity_score 0.5)
          (sanitizeEnv rawE).ecosystem_health) : ℚ) / 100 := by
  have heco : envHealthOf (sanitizeEnv rawE) = (sanitizeEnv rawE).ecosystem_health :=
    jsOrStr_of_ne_empty _ (mem_eco_ne_empty (sanitizeEnv_eco_mem rawE))
  show (jsRound (rawOverallScore (sanitizeFrog rawF fn) (sanitizeEnv rawE) * 100) : ℚ) / 100 = _
  have harg : rawOverallScore (sanitizeFrog rawF fn) (sanitizeEnv rawE) * 100
      = 100 * claimOverallScore (fusionCallDensity (sanitizeFrog rawF fn))
          (jsOr (sanitizeEnv rawE).biodiversity_score 0.5)
          (sanitizeEnv rawE).ecosystem_health := by
    unfold rawOverallScore claimOverallScore frogScoreOf claimFrogScore envScoreOf
      claimEnvScore fusionBiodiversity
    rw [heco]
    ring
  rw [harg]

/-- Claim C3 counterexample: with call density 60, biodiversity 0.499 and
stressed ecosystem the unrounded overall score is 0.6997, so the status
is warning, yet the returned (rounded) overall score is 0.70 — the status
is not the claimed function of the returned score. -/
theorem c3_counterexample :
    (0.7 : ℚ) ≤ (generateWaterQualityAssessment cxFrog (sanitizeEnv cxEnvNearRaw)).overall_score
    ∧ (generateWaterQualityAssessment cxFrog (sanitizeEnv cxEnvNearRaw)).status ≠ "good"
    ∧ (generateWaterQualityAssessment cxFrog (sanitizeEnv cxEnvNearRaw)).status = "warning" := by
  have hbio : (sanitizeEnv cxEnvNearRaw).biodiversity_score = 499/1000 := by
    norm_num [sanitizeEnv, cxEnvNearRaw, min_def, max_def]
  have heco : (sanitizeEnv cxEnvNearRaw).ecosystem_health = "stressed" := by
    simp [sanitizeEnv, cxEnvNearRaw]
  have hfb : fusionBiodiversity (sanitizeEnv cxEnvNearRaw) = 499/1000 := by
    unfold fusionBiodiversity
    rw [hbio]
    norm_num [jsOr]
  have hes : envScoreOf (sanitizeEnv cxEnvNearRaw) = 0.5 := by
    unfold envScoreOf envHealthOf
    rw [heco]
    simp [jsOrStr]
  have hraw : rawOverallScore cxFrog (sanitizeEnv cxEnvNearRaw) = 6997/10000 := by
    unfold rawOverallScore
    rw [cx_frog_score, hfb, hes]
    norm_num
  have hov : (generateWaterQualityAssessment cxFrog (sanitizeEnv cxEnvNearRaw)).overall_score
      = 7/10 := by
    show (jsRound (rawOverallScore cxFrog (sanitizeEnv cxEnvNearRaw) * 100) : ℚ) / 100 = 7/10
    rw [hraw]
    have h70 : jsRound ((6997 : ℚ)/10000 * 100) = 70 := by norm_num [jsRound, Int.floor_eq_iff]
    rw [h70]
    norm_num
  have hst : (generateWaterQualityAssessment cxFrog (sanitizeEnv cxEnvNearRaw)).status
      = "warning" := by
    show statusOf cxFrog (sanitizeEnv cxEnvNearRaw) = "warning"
    unfold statusOf
    rw [hraw]
    rw [if_neg (by norm_num), if_pos (by norm_num)]
  refine ⟨by rw [hov]; norm_num, by rw [hst]; decide, hst⟩

/-- Claim C3 (amended): the status is derived deterministically from the
UNROUNDED overall score: good iff it is at least 0.7, warning iff it is
in [0.4, 0.7), alert iff it is below 0.4.  (The returned
`overall_score` field is that score rounded to two decimals, so the
thresholds do not generally agree with the returned value.) -/
theorem c3_status_thresholds (f : SanFrog) (e : SanEnv) :
    ((generateWaterQualityAssessment f e).status = "good" ↔ rawOverallScore f e ≥ 0.7)
    ∧ ((generateWaterQualityAssessment f e).status = "warning" ↔
        (0.4 ≤ rawOverallScore f e ∧ rawOverallScore f e < 0.7))
    ∧ ((generateWaterQualityAssessment f e).status = "alert" ↔ rawOverallScore f e < 0.4) := by
  have hs : (generateWaterQualityAssessment f e).status = statusOf f e := rfl
  rw [hs]
  unfold statusOf
  split_ifs with h1 h2
  · refine ⟨⟨fun _ => h1, fun _ => rfl⟩, ?_, ?_⟩
    · exact ⟨fun hc => absurd hc (by decide), fun hc => absurd h1 (not_le.mpr hc.2)⟩
    · exact ⟨fun hc => absurd hc (by decide),
        fun hc => absurd h1 (not_le.mpr (lt_of_lt_of_le hc (by norm_num)))⟩
  · refine ⟨?_, ⟨fun _ => ⟨h2, lt_of_not_le h1⟩, fun _ => rfl⟩, ?_⟩
    · exact ⟨fun hc => absurd hc (by decide), fun hc => absurd hc h1⟩
    · exact ⟨fun hc => absurd hc (by decide), fun hc => absurd h2 (not_le.mpr hc)⟩
  · refine ⟨?_, ?_, ⟨fun _ => lt_of_not_le h2, fun _ => rfl⟩⟩
    · exact ⟨fun hc => absurd hc (by decide), fun hc => absurd hc h1⟩
    · exact ⟨fun hc => absurd hc (by decide), fun hc => absurd hc.1 h2⟩

/-- Claim C5 counterexample: with both analyzers succeeding, a failure of
the endpoint's own persistence step (`kv.get`/`kv.set` of
`recent_analyses`) makes the request fail with a 500 error response and
the computed assessment is not returned — responding IS gated on that
storage step. -/
theorem c5_counterexample :
    (analyzeEndpoint (Except.ok none) (Except.ok none) "field.wav" false).analysis = none
    ∧ (analyzeEndpoint (Except.ok none) (Except.ok none) "field.wav" false).status = 500
    ∧ (analyzeEndpoint (Except.ok none) (Except.ok none) "field.wav" false).success = false :=
  ⟨rfl, rfl, rfl⟩

/-- Claim C5 (amended): analyzer and fusion errors never fail the request,
and a persistence failure inside `storeAnalysis` is swallowed —
`processAudio` still returns the computed assessment (leaving the history
unchanged).  However, a persistence failure in the endpoint's own
`recent_analyses` update does fail the request with a 500 response
instead of returning the assessment. -/
theorem c5_persistence_failure_semantics (frogOut : Except String (Option RawFrog))
    (envOut : Except String (Option RawEnv)) (fn analysisId : String)
    (storeKvOk : Bool) (hist : List String) (endpointKvOk : Bool) :
    ((processAudioRun frogOut envOut fn analysisId storeKvOk hist).1
      = Except.ok (processAudioAnalysis frogOut envOut fn))
    ∧ (endpointKvOk = true →
        analyzeEndpoint frogOut envOut fn endpointKvOk
          = ⟨true, some (processAudioAnalysis frogOut envOut fn), 200⟩)
    ∧ (endpointKvOk = false →
        analyzeEndpoint frogOut envOut fn endpointKvOk = ⟨false, none, 500⟩) := by
  refine ⟨rfl, ?_, ?_⟩
  · rintro rfl
    rfl
  · rintro rfl
    rfl

/-- Claim C5 witness: even with both analyzer branches throwing and the
processor-level store failing, the run returns the computed assessment;
and with working endpoint persistence the request succeeds. -/
theorem c5_persistence_failure_semantics_witness :
    ((processAudioRun (Except.error "boom") (Except.error "crash") "f.wav" "id1" false []).1
      = Except.ok (processAudioAnalysis (Except.error "boom") (Except.error "crash") "f.wav"))
    ∧ analyzeEndpoint (Except.error "boom") (Except.error "crash") "f.wav" true
      = ⟨true, some (processAudioAnalysis (Except.error "boom") (Except.error "crash") "f.wav"),
          200⟩ :=
  ⟨(c5_persistence_failure_semantics (Except.error "boom") (Except.error "crash")
      "f.wav" "id1" false [] true).1,
   (c5_persistence_failure_semantics (Except.error "boom") (Except.error "crash")
      "f.wav" "id1" false [] true).2.1 rfl⟩

/-- Claim C6 counterexample: the analyze endpoint's `recent_analyses`
history is capped at 20, not 50 — after 21 analyses only 20 assessment
ids remain and the oldest (id "0") has been dropped, contradicting
"after any sequence of n ≤ 50 analyses all n assessments remain". -/
theorem c6_counterexample :
    (21 : ℕ) ≤ 50
    ∧ (endpointIterate 21).length = 20
    ∧ toString (0 : ℕ) ∉ endpointIterate 21 := by
  decide

/-- Claim C6 (amended): the processor-level `storeAnalysis` history
(`historical_analyses`) keeps exactly the 50 newest ids — every update is
an unshift followed by truncation to 50, so after n ≤ 50 analyses all n
ids remain; the analyze endpoint's own `recent_analyses` history instead
keeps only the 20 newest. -/
theorem c6_history_caps :
    (∀ (recent : List String) (id : String),
      storeAnalysisHistory recent id = (id :: recent).take 50)
    ∧ (∀ n : ℕ, n ≤ 50 → storeIterate n = (List.range n).reverse.map toString)
    ∧ (∀ n : ℕ, n ≤ 50 → (storeIterate n).length = n)
    ∧ (∀ n i : ℕ, n ≤ 50 → i < n → toString i ∈ storeIterate n)
    ∧ (∀ (recent : List String) (id : String),
      endpointRecentUpdate recent id = (id :: recent).take 20) := by
  have hstore : ∀ (recent : List String) (id : String),
      storeAnalysisHistory recent id = (id :: recent).take 50 := by
    intro recent id
    unfold storeAnalysisHistory
    dsimp only
    split_ifs with h
    · rfl
    · exact (List.take_of_length_le (by omega)).symm
  have hiter : ∀ n : ℕ, n ≤ 50 → storeIterate n = (List.range n).reverse.map toString := by
    intro n
    induction n with
    | zero => intro _; rfl
    | succ m ih =>
      intro hm
      have hm' : m ≤ 50 := by omega
      show storeAnalysisHistory (storeIterate m) (toString m) = _
      rw [hstore, ih hm']
      have hlen : (toString m :: (List.range m).reverse.map toString).length ≤ 50 := by
        simp
        omega
      rw [List.take_of_length_le hlen, List.range_succ]
      simp
  refine ⟨hstore, hiter, ?_, ?_, ?_⟩
  · intro n hn
    rw [hiter n hn]
    simp
  · intro n i hn hi
    rw [hiter n hn]
    exact List.mem_map_of_mem toString (by simp [hi])
  · intro recent id
    unfold endpointRecentUpdate
    dsimp only
    split_ifs with h
    · rfl
    · exact (List.take_of_length_le (by omega)).symm

/-- Claim C6 witness: after 50 `storeAnalysis` updates all 50 assessment
ids are still present in the stored history. -/
theorem c6_history_caps_witness :
    (storeIterate 50).length = 50 ∧ toString (7 : ℕ) ∈ storeIterate 50 :=
  ⟨c6_history_caps.2.2.1 50 (by decide), c6_history_caps.2.2.2.1 50 7 (by decide) (by decide)⟩

/-- Claim C7: alert evaluation creates a critical water-quality alert iff
the assessment status is alert, and a low-biodiversity alert iff the
biodiversity score is below 0.3; at most one alert per rule is created
per assessment, new alerts are prepended to the stored list, and the
stored list never exceeds 20 entries. -/
theorem c7_alert_rules (a : ComprehensiveAnalysis) (analysisId : String) (now : ℕ)
    (existing : List AlertRec) :
    ((∃ al ∈ createdAlerts a analysisId now, al.type = "water_quality") ↔
      a.water_quality_assessment.status = "alert")
    ∧ ((∃ al ∈ createdAlerts a analysisId now, al.type = "biodiversity") ↔
      a.environmental_analysis.biodiversity_score < 0.3)
    ∧ (createdAlerts a analysisId now).countP (fun al => al.type == "water_quality") ≤ 1
    ∧ (createdAlerts a analysisId now).countP (fun al => al.type == "biodiversity") ≤ 1
    ∧ (createdAlerts a analysisId now ≠ [] →
      checkAndCreateAlerts a analysisId now existing
        = (createdAlerts a analysisId now ++ existing).take 20)
    ∧ (existing.length ≤ 20 → (checkAndCreateAlerts a analysisId now existing).length ≤ 20) := by
  by_cases h1 : a.water_quality_assessment.status = "alert" <;>
    by_cases h2 : a.environmental_analysis.biodiversity_score < 0.3 <;>
      refine ⟨?_, ?_, ?_, ?_, ?_, ?_⟩ <;>
        simp [createdAlerts, checkAndCreateAlerts, h1, h2, List.countP_cons, List.countP_nil]

/-- Claim C7 witness: for an assessment with alert status and zero
biodiversity, a water-quality alert is created, the fresh alerts are
prepended to the (empty) stored list, and the stored list stays within
the 20-entry cap. -/
theorem c7_alert_rules_witness :
    (∃ al ∈ createdAlerts alertAnalysis "id0" 123, al.type = "water_quality")
    ∧ checkAndCreateAlerts alertAnalysis "id0" 123 []
        = (createdAlerts alertAnalysis "id0" 123 ++ []).take 20
    ∧ (checkAndCreateAlerts alertAnalysis "id0" 123 []).length ≤ 20 :=
  ⟨(c7_alert_rules alertAnalysis "id0" 123 []).1.mpr rfl,
   (c7_alert_rules alertAnalysis "id0" 123 []).2.2.2.2.1
      (by simp [createdAlerts, alertAnalysis, show (0 : ℚ) < 0.3 from by norm_num]),
   (c7_alert_rules alertAnalysis "id0" 123 []).2.2.2.2.2 (by decide)⟩

/-- Claim C8: with quiet hours enabled and the current time inside the
configured window (overnight wraparound included, via `isInQuietHours`),
a non-critical payload is suppressed entirely — the result is
`in_quiet_hours = true` with empty sent and failed lists, and no channel
outcome is consulted; a critical payload at the same moment is delivered
exactly as if quiet hours were disabled. -/
theorem c8_quiet_hours (payload : NotificationPayload) (p : NotificationPreferences)
    (now : ℕ) (outcome : String → Bool) :
    (isInQuietHours p now = true → payload.severity ≠ "critical" →
      sendNotification payload p now outcome = ⟨[], [], true⟩)
    ∧ (payload.severity = "critical" →
      sendNotification payload p now outcome
        = sendNotification payload (disableQuietHours p) now outcome) := by
  constructor
  · intro hq hs
    unfold sendNotification
    rw [if_pos ⟨hq, hs⟩]
  · intro hcrit
    have hq1 : ¬ (isInQuietHours p now = true ∧ payload.severity ≠ "critical") :=
      fun hc => hc.2 hcrit
    have hq0 : isInQuietHours (disableQuietHours p) now = false := rfl
    have hq2 : ¬ (isInQuietHours (disableQuietHours p) now = true ∧
        payload.severity ≠ "critical") := fun hc => by rw [hq0] at hc; exact absurd hc.1 (by simp)
    unfold sendNotification
    rw [if_neg hq1, if_neg hq2]
    rfl

/-- Claim C8 witness: with the 22:00-06:00 window, 23:30 is inside quiet
hours; a high-severity payload is suppressed with no channel attempted,
while a critical payload at the same time is delivered as if quiet hours
were off. -/
theorem c8_quiet_hours_witness :
    isInQuietHours qhPrefs 1410 = true
    ∧ sendNotification warnPayload qhPrefs 1410 (fun _ => true) = ⟨[], [], true⟩
    ∧ sendNotification critPayload qhPrefs 1410 (fun _ => true)
        = sendNotification critPayload (disableQuietHours qhPrefs) 1410 (fun _ => true) :=
  ⟨by decide,
   (c8_quiet_hours warnPayload qhPrefs 1410 (fun _ => true)).1 (by decide) (by decide),
   (c8_quiet_hours critPayload qhPrefs 1410 (fun _ => true)).2 rfl⟩

theorem channelStep_mem (outcome : String → Bool) (acc : List String × List String)
    (c : Channel) (t : String) :
    (t ∈ (channelStep outcome acc c).1 → t ∈ acc.1 ∨ t = c.type)
    ∧ (t ∈ (channelStep outcome acc c).2 → t ∈ acc.2 ∨ t = c.type) := by
  unfold channelStep
  split_ifs <;> simp_all

theorem foldl_channelStep_mem (outcome : String → Bool) (t : String) :
    ∀ (chs : List Channel) (acc : List String × List String),
      (t ∈ (chs.foldl (channelStep outcome) acc).1 →
        t ∈ acc.1 ∨ t ∈ chs.map Channel.type)
      ∧ (t ∈ (chs.foldl (channelStep outcome) acc).2 →
        t ∈ acc.2 ∨ t ∈ chs.map Channel.type) := by
  intro chs
  induction chs with
  | nil => intro acc; simp
  | cons c rest ih =>
    intro acc
    constructor
    · intro hmem
      rcases (ih (channelStep outcome acc c)).1 hmem with h | h
      · rcases (channelStep_mem outcome acc c t).1 h with h2 | h2
        · exact Or.inl h2
        · exact Or.inr (by simp [h2])
      · exact Or.inr (by simp [h])
    · intro hmem
      rcases (ih (channelStep outcome acc c)).2 hmem with h | h
      · rcases (channelStep_mem outcome acc c t).2 h with h2 | h2
        · exact Or.inl h2
        · exact Or.inr (by simp [h2])
      · exact Or.inr (by simp [h])

theorem sendNotification_not_mentioned (payload : NotificationPayload)
    (p : NotificationPreferences) (now : ℕ) (outcome : String → Bool) (t : String)
    (ht : t ∉ p.channels.map Channel.type) :
    t ∉ (sendNotification payload p now outcome).sent
    ∧ t ∉ (sendNotification payload p now outcome).failed := by
  unfold sendNotification
  split_ifs
  · simp
  · simp
  · constructor
    · intro hmem
      rcases (foldl_channelStep_mem outcome t p.channels ([], [])).1 hmem with h | h
      · simp at h
      · exact ht h
    · intro hmem
      rcases (foldl_channelStep_mem outcome t p.channels ([], [])).2 hmem with h | h
      · simp at h
      · exact ht h

/-- Claim C10: an enabled email channel without a (truthy) email address,
or an enabled sms channel without a phone number, is skipped without any
delivery attempt: its loop iteration is the identity, removing the
channel from the preference list does not change the result at all, and
when no other channel of that type is configured the type appears in
neither the sent nor the failed list. -/
theorem c10_unconfigured_channel_skipped (payload : NotificationPayload)
    (p : NotificationPreferences) (now : ℕ) (outcome : String → Bool)
    (pre post : List Channel) (c : Channel)
    (hen : c.enabled = true)
    (hskip : (c.type = "email" ∧ truthyStr ((c.config).bind ChannelConfig.email) = false)
      ∨ (c.type = "sms" ∧ truthyStr ((c.config).bind ChannelConfig.phone) = false))
    (hch : p.channels = pre ++ c :: post) :
    (∀ acc, channelStep outcome acc c = acc)
    ∧ sendNotification payload p now outcome
      = sendNotification payload { p with channels := pre ++ post } now outcome
    ∧ (c.type ∉ (pre ++ post).map Channel.type →
      c.type ∉ (sendNotification payload p now outcome).sent
      ∧ c.type ∉ (sendNotification payload p now outcome).failed) := by
  have hstep : ∀ acc, channelStep outcome acc c = acc := by
    intro acc
    rcases hskip with ⟨hty, hfalse⟩ | ⟨hty, hfalse⟩ <;>
      simp [channelStep, hen, hty, hfalse]
  have hfold : ∀ acc, (pre ++ c :: post).foldl (channelStep outcome) acc
      = (pre ++ post).foldl (channelStep outcome) acc := by
    intro acc
    rw [List.foldl_append, List.foldl_append, List.foldl_cons, hstep]
  have e1 : isInQuietHours { p with channels := pre ++ post } now = isInQuietHours p now := rfl
  have e2 : isAlertTypeEnabled payload.type { p with channels := pre ++ post }
      = isAlertTypeEnabled payload.type p := rfl
  have e3 : ({ p with channels := pre ++ post } : NotificationPreferences).channels
      = pre ++ post := rfl
  have hsend : sendNotification payload p now outcome
      = sendNotification payload { p with channels := pre ++ post } now outcome := by
    unfold sendNotification
    dsimp only
    rw [e1, e2, hch, hfold]
  refine ⟨hstep, hsend, ?_⟩
  intro hnomem
  have hmain := sendNotification_not_mentioned payload { p with channels := pre ++ post }
    now outcome c.type (by rw [e3]; exact hnomem)
  rw [hsend]
  exact hmain

/-- Claim C10 witness: in a channel list holding an enabled in-app
channel followed by an enabled email channel with no configured address,
the email channel contributes nothing: its loop step is the identity,
the result equals the result without it, and "email" appears in neither
result list. -/
theorem c10_unconfigured_channel_skipped_witness :
    channelStep (fun _ => true) ([], []) emailNoCfg = ([], [])
    ∧ sendNotification warnPayload c10Prefs 720 (fun _ => true)
        = sendNotification warnPayload { c10Prefs with channels := [inAppCh] ++ [] } 720
            (fun _ => true)
    ∧ ("email" ∉ (sendNotification warnPayload c10Prefs 720 (fun _ => true)).sent
      ∧ "email" ∉ (sendNotification warnPayload c10Prefs 720 (fun _ => true)).failed) := by
  have h := c10_unconfigured_channel_skipped warnPayload c10Prefs 720 (fun _ => true)
    [inAppCh] [] emailNoCfg rfl (Or.inl ⟨rfl, rfl⟩) rfl
  exact ⟨h.1 ([], []), h.2.1, h.2.2 (by decide)⟩

theorem makeGeminiRequest_on_ok (o : ℕ → ReqOutcome) (a : ℕ) (h : o a = ReqOutcome.ok) :
    makeGeminiRequest o a = Except.ok a := by
  rw [makeGeminiRequest, h]

theorem makeGeminiRequest_http_retry (o : ℕ → ReqOutcome) (a s : ℕ) (b : String)
    (h : o a = ReqOutcome.httpErr s b) (hlt : a < geminiMaxRetries)
    (hr : isRetryableError s b = true) :
    makeGeminiRequest o a = makeGeminiRequest o (a + 1) := by
  rw [makeGeminiRequest, h]
  dsimp only
  rw [dif_pos ⟨hlt, hr⟩]

theorem makeGeminiRequest_http_stop (o : ℕ → ReqOutcome) (a s : ℕ) (b : String)
    (h : o a = ReqOutcome.httpErr s b)
    (hc : ¬(a < geminiMaxRetries ∧ isRetryableError s b = true)) :
    makeGeminiRequest o a = Except.error (ReqOutcome.httpErr s b) := by
  rw [makeGeminiRequest, h]
  dsimp only
  rw [dif_neg hc]

theorem makeGeminiRequest_net_retry (o : ℕ → ReqOutcome) (a : ℕ)
    (h : o a = ReqOutcome.netErr) (hlt : a < geminiMaxRetries) :
    makeGeminiRequest o a = makeGeminiRequest o (a + 1) := by
  rw [makeGeminiRequest, h]
  dsimp only
  rw [dif_pos hlt]

theorem makeGeminiRequest_net_stop (o : ℕ → ReqOutcome) (a : ℕ)
    (h : o a = ReqOutcome.netErr) (hge : ¬ a < geminiMaxRetries) :
    makeGeminiRequest o a = Except.error ReqOutcome.netErr := by
  rw [makeGeminiRequest, h]
  dsimp only
  rw [dif_neg hge]

theorem makeGeminiRequest_ok_le (o : ℕ → ReqOutcome) :
    ∀ m a i, geminiMaxRetries + 1 - a ≤ m → makeGeminiRequest o a = Except.ok i →
      i ≤ max a geminiMaxRetries := by
  intro m
  have h3 : geminiMaxRetries = 3 := rfl
  induction m with
  | zero =>
    intro a i hm h
    cases ho : o a with
    | ok =>
      rw [makeGeminiRequest_on_ok o a ho] at h
      injection h with h
      rw [h]
      exact le_max_left _ _
    | httpErr s b =>
      rw [makeGeminiRequest_http_stop o a s b ho (fun hc => by
        have := hc.1
        omega)] at h
      exact absurd h (by simp)
    | netErr =>
      rw [makeGeminiRequest_net_stop o a ho (by omega)] at h
      exact absurd h (by simp)
  | succ m ih =>
    intro a i hm h
    cases ho : o a with
    | ok =>
      rw [makeGeminiRequest_on_ok o a ho] at h
      injection h with h
      rw [h]
      exact le_max_left _ _
    | httpErr s b =>
      by_cases hc : a < geminiMaxRetries ∧ isRetryableError s b = true
      · rw [makeGeminiRequest_http_retry o a s b ho hc.1 hc.2] at h
        have hnext := ih (a + 1) i (by omega) h
        have ha := hc.1
        rw [h3] at hnext ha ⊢
        simp only [Nat.max_def] at hnext ⊢
        split_ifs at hnext ⊢ <;> omega
      · rw [makeGeminiRequest_http_stop o a s b ho hc] at h
        exact absurd h (by simp)
    | netErr =>
      by_cases hc : a < geminiMaxRetries
      · rw [makeGeminiRequest_net_retry o a ho hc] at h
        have hnext := ih (a + 1) i (by omega) h
        rw [h3] at hnext hc ⊢
        simp only [Nat.max_def] at hnext ⊢
        split_ifs at hnext ⊢ <;> omega
      · rw [makeGeminiRequest_net_stop o a ho hc] at h
        exact absurd h (by simp)

theorem makeGeminiRequest_congr :
    ∀ m (o o' : ℕ → ReqOutcome) a, geminiMaxRetries + 1 - a ≤ m → a ≤ geminiMaxRetries →
      (∀ k, a ≤ k → k ≤ geminiMaxRetries → o k = o' k) →
      makeGeminiRequest o a = makeGeminiRequest o' a := by
  intro m
  have h3 : geminiMaxRetries = 3 := rfl
  induction m with
  | zero => intro o o' a hm ha _; omega
  | succ m ih =>
    intro o o' a hm ha hagree
    have hoa : o' a = o a := (hagree a le_rfl ha).symm
    cases ho : o a with
    | ok =>
      rw [makeGeminiRequest_on_ok o a ho,
        makeGeminiRequest_on_ok o' a (by rw [hoa]; exact ho)]
    | httpErr s b =>
      have ho' : o' a = ReqOutcome.httpErr s b := by rw [hoa]; exact ho
      by_cases hc : a < geminiMaxRetries ∧ isRetryableError s b = true
      · rw [makeGeminiRequest_http_retry o a s b ho hc.1 hc.2,
          makeGeminiRequest_http_retry o' a s b ho' hc.1 hc.2]
        have := hc.1
        exact ih o o' (a + 1) (by omega) (by omega)
          (fun k hk1 hk2 => hagree k (by omega) hk2)
      · rw [makeGeminiRequest_http_stop o a s b ho hc,
          makeGeminiRequest_http_stop o' a s b ho' hc]
    | netErr =>
      have ho' : o' a = ReqOutcome.netErr := by rw [hoa]; exact ho
      by_cases hc : a < geminiMaxRetries
      · rw [makeGeminiRequest_net_retry o a ho hc, makeGeminiRequest_net_retry o' a ho' hc]
        exact ih o o' (a + 1) (by omega) (by omega)
          (fun k hk1 hk2 => hagree k (by omega) hk2)
      · rw [makeGeminiRequest_net_stop o a ho hc, makeGeminiRequest_net_stop o' a ho' hc]

/-- Claim C9: the Gemini client makes at most 3 retries (4 attempts in
total: the run only consults attempt outcomes 0..3 and a success index is
below 4); the delay before retry n (0-based) is 1000ms·2^n plus up to 30%
random jitter, capped at 10000ms; a failed HTTP response is retried
exactly when its status is 5xx or 429 or its lowered error text contains
"overloaded" / "rate limit" / "temporarily unavailable" (503 is also
listed separately in the code but is subsumed by 5xx), and is not retried
otherwise; network fetch errors are retried up to the same budget. -/
theorem c9_retry_policy (o o' : ℕ → ReqOutcome) (a n s i : ℕ) (b : String) (j : ℚ) :
    ((∀ k, k ≤ 3 → o k = o' k) → makeGeminiRequest o 0 = makeGeminiRequest o' 0)
    ∧ (makeGeminiRequest o 0 = Except.ok i → i + 1 ≤ 4)
    ∧ (0 ≤ j → j < 1 → ∃ jit, 0 ≤ jit ∧ jit ≤ 0.3 * (1000 * 2 ^ n)
        ∧ calculateRetryDelay n j = min (1000 * 2 ^ n + jit) 10000)
    ∧ (o a = ReqOutcome.httpErr s b → isRetryableError s b = false →
        makeGeminiRequest o a = Except.error (ReqOutcome.httpErr s b))
    ∧ (o a = ReqOutcome.httpErr s b → isRetryableError s b = true → a < 3 →
        makeGeminiRequest o a = makeGeminiRequest o (a + 1))
    ∧ (isRetryableError s b = true ↔ ((500 ≤ s ∧ s < 600) ∨ s = 429
        ∨ strIncludes (toLowerStr b) "overloaded" = true
        ∨ strIncludes (toLowerStr b) "rate limit" = true
        ∨ strIncludes (toLowerStr b) "temporarily unavailable" = true))
    ∧ (o a = ReqOutcome.netErr → a < 3 → makeGeminiRequest o a = makeGeminiRequest o (a + 1))
    ∧ (o a = ReqOutcome.netErr → 3 ≤ a →
        makeGeminiRequest o a = Except.error ReqOutcome.netErr) := by
  have h3 : geminiMaxRetries = 3 := rfl
  refine ⟨?_, ?_, ?_, ?_, ?_, ?_, ?_, ?_⟩
  · intro hagree
    exact makeGeminiRequest_congr 4 o o' 0 (by omega) (by omega)
      (fun k _ hk2 => hagree k (by omega))
  · intro h
    have := makeGeminiRequest_ok_le o 4 0 i (by omega) h
    rw [h3] at this
    simp only [Nat.max_def] at this
    split_ifs at this <;> omega
  · intro hj0 hj1
    have hp : (0 : ℚ) ≤ 1000 * 2 ^ n := by positivity
    refine ⟨j * 0.3 * (1000 * 2 ^ n), ?_, ?_, ?_⟩
    · have h03 : (0 : ℚ) ≤ 0.3 := by norm_num
      exact mul_nonneg (mul_nonneg hj0 h03) hp
    · nlinarith [hp, hj0, hj1]
    · rfl
  · intro ho hnr
    exact makeGeminiRequest_http_stop o a s b ho
      (fun hc => absurd hc.2 (by rw [hnr]; simp))
  · intro ho hr hlt
    exact makeGeminiRequest_http_retry o a s b ho (by omega) hr
  · simp only [isRetryableError, Bool.or_eq_true, Bool.and_eq_true, decide_eq_true_eq,
      beq_iff_eq]
    constructor
    · rintro (((((⟨h5, h6⟩ | h429) | h503) | hov) | hrl) | htu)
      · exact Or.inl ⟨h5, h6⟩
      · exact Or.inr (Or.inl h429)
      · exact Or.inl (by omega)
      · exact Or.inr (Or.inr (Or.inl hov))
      · exact Or.inr (Or.inr (Or.inr (Or.inl hrl)))
      · exact Or.inr (Or.inr (Or.inr (Or.inr htu)))
    · rintro (⟨h5, h6⟩ | h429 | hov | hrl | htu)
      · exact Or.inl (Or.inl (Or.inl (Or.inl (Or.inl ⟨h5, h6⟩))))
      · exact Or.inl (Or.inl (Or.inl (Or.inl (Or.inr h429))))
      · exact Or.inl (Or.inl (Or.inr hov))
      · exact Or.inl (Or.inr hrl)
      · exact Or.inr htu
  · intro ho hlt
    exact makeGeminiRequest_net_retry o a ho (by omega)
  · intro ho hge
    exact makeGeminiRequest_net_stop o a ho (by omega)

/-- Claim C9 witness: the first retry delay with a mid-range random draw,
a non-retryable 400 stopping immediately, a network error at attempt 0
being retried, and a 503 classified as retryable. -/
theorem c9_retry_policy_witness :
    (∃ jit, 0 ≤ jit ∧ jit ≤ 0.3 * (1000 * 2 ^ 1)
      ∧ calculateRetryDelay 1 (1/2) = min (1000 * 2 ^ 1 + jit) 10000)
    ∧ makeGeminiRequest (fun _ => ReqOutcome.httpErr 400 "bad request") 0
        = Except.error (ReqOutcome.httpErr 400 "bad request")
    ∧ makeGeminiRequest (fun _ => ReqOutcome.netErr) 0
        = makeGeminiRequest (fun _ => ReqOutcome.netErr) 1
    ∧ isRetryableError 503 "Service Unavailable" = true := by
  refine ⟨?_, ?_, ?_, ?_⟩
  · exact (c9_retry_policy (fun _ => ReqOutcome.ok) (fun _ => ReqOutcome.ok)
      0 1 0 0 "" (1/2)).2.2.1 (by norm_num) (by norm_num)
  · exact (c9_retry_policy (fun _ => ReqOutcome.httpErr 400 "bad request")
      (fun _ => ReqOutcome.ok) 0 0 400 0 "bad request" 0).2.2.2.1 rfl (by decide)
  · exact (c9_retry_policy (fun _ => ReqOutcome.netErr)
      (fun _ => ReqOutcome.ok) 0 0 0 0 "" 0).2.2.2.2.2.2.1 rfl (by decide)
  · exact (c9_retry_policy (fun _ => ReqOutcome.ok) (fun _ => ReqOutcome.ok)
      0 0 503 0 "Service Unavailable" 0).2.2.2.2.2.1.mpr (Or.inl (by omega))

end NADA
